import Mathlib

/-!
Verification of the text-scoring pipeline in `src/app.py`.

The pipeline is embedded shallowly:
* `split_sentences` models the regex split on terminal punctuation followed
  by whitespace (lines 62-66).
* `calculate_burstiness` models lines 68-85 (population std-dev over mean).
* `simulate_perplexity_analysis` models lines 87-114; the calls to
  `random.uniform(0.8, 1.5)` are modelled by an explicit stream
  `draws : ℕ → ℚ` giving the draw of each loop iteration.
* `score` models the scoring step of `analyze_text` (lines 132-151), and
  `verdict` the threshold of lines 223-225.
* `scoreFloat` models the same scoring step under IEEE binary64 semantics
  (`rnd64` rounds an exact rational to the nearest double), for the claims
  that concern the exact values the floating-point program produces.
Numeric values are otherwise modelled with exact arithmetic: `ℚ` everywhere
except the square root inside the standard deviation, which lives in `ℝ`.
-/

namespace App

/-- The set of terminal punctuation marks of the regex `[.!?。！？]`. -/
def isTerminal (c : Char) : Bool :=
  c = '.' || c = '!' || c = '?' || c = '。' || c = '！' || c = '？'

/-- Whitespace per Python's regex class `\s` (ASCII subset). -/
def isSpace (c : Char) : Bool :=
  c = ' ' || c = '\t' || c = '\n' || c = '\r' || c = '\x0b' || c = '\x0c'

/-- Does the list start with a whitespace character? -/
def headSpace : List Char → Bool
  | [] => false
  | c :: _ => isSpace c

/-- Core of `re.split(r'(?<=[.!?。！？])\s+', text)`: a separator is a maximal
whitespace run immediately preceded by a terminal punctuation mark.  When
`skipping` is true we are inside such a run and keep consuming it. -/
def splitAux (skipping : Bool) (acc : List Char) : List Char → List (List Char)
  | [] => [acc.reverse]
  | c :: rest =>
    if skipping && isSpace c then
      splitAux true acc rest
    else if isTerminal c && headSpace rest then
      (c :: acc).reverse :: splitAux true [] rest
    else
      splitAux false (c :: acc) rest

/-- Python's `str.strip()` on a character list. -/
def stripChars (l : List Char) : List Char :=
  ((l.dropWhile isSpace).reverse.dropWhile isSpace).reverse

/-- `split_sentences` (lines 62-66): split on terminal punctuation followed by
whitespace, strip every piece, drop the empty ones. -/
def split_sentences (text : String) : List String :=
  (((splitAux false [] text.data).map stripChars).filter (fun l => l ≠ [])).map
    (fun l => String.mk l)

/-- Arithmetic mean of a rational list, as computed by `np.mean`
(callers only use it on non-empty lists). -/
def meanQ (l : List ℚ) : ℚ := l.sum / l.length

/-- Population variance of a rational list, as computed by `np.var`
(callers only use it on non-empty lists). -/
def popVarQ (l : List ℚ) : ℚ :=
  (l.map (fun x => (x - meanQ l) ^ 2)).sum / l.length

/-- The character lengths of the sentences, cast to `ℚ`
(`lengths = [len(s) for s in sentences]`, line 76). -/
def lengthsQ (sentences : List String) : List ℚ :=
  sentences.map (fun s => (s.length : ℚ))

/-- `calculate_burstiness` (lines 68-85): returns
`(std_dev / mean_len, mean_len)`, or `(0, 0)` when the sentence list is empty
or the mean length is zero. -/
noncomputable def calculate_burstiness (sentences : List String) : ℝ × ℚ :=
  if sentences = [] then (0, 0)
  else
    let mean_len := meanQ (lengthsQ sentences)
    if mean_len = 0 then (0, 0)
    else (Real.sqrt (popVarQ (lengthsQ sentences)) / (mean_len : ℝ), mean_len)

/-- The synthetic perplexity of one sentence given its random draw
(lines 101-110): base 10, multiplied by 2.5 for very short or very long
sentences and by 1.2 otherwise, then by the draw. -/
def pp_of (draw : ℚ) (sent : String) : ℚ :=
  if sent.length < 5 ∨ sent.length > 80 then 10 * 2.5 * draw
  else 10 * 1.2 * draw

/-- The loop of lines 100-112: one perplexity value per sentence, the `i`-th
iteration using the `i`-th random draw. -/
def pp_loop (draws : ℕ → ℚ) : ℕ → List String → List ℚ
  | _, [] => []
  | i, s :: rest => pp_of (draws i) s :: pp_loop draws (i + 1) rest

/-- `simulate_perplexity_analysis` (lines 87-114): returns the sentence list
together with the synthetic perplexity series. -/
def simulate_perplexity_analysis (draws : ℕ → ℚ) (text : String) :
    List String × List ℚ :=
  let sentences := split_sentences text
  (sentences, pp_loop draws 0 sentences)

/-- The burstiness adjustment of lines 133-139: base 0.5, `+0.2` below 0.4,
`-0.2` above 0.6, unchanged in between. -/
def ai_score_after_burstiness {α : Type} [LinearOrderedField α]
    (burstiness_score : α) : α :=
  if burstiness_score < 0.4 then 0.5 + 0.2
  else if burstiness_score > 0.6 then 0.5 - 0.2
  else 0.5

/-- The variance adjustment of lines 142-145: `+0.2` when the perplexity
variance is below 10, `-0.15` otherwise. -/
def ai_score_after_variance {α : Type} [LinearOrderedField α]
    (burstiness_score pp_variance : α) : α :=
  if pp_variance < 10 then ai_score_after_burstiness burstiness_score + 0.2
  else ai_score_after_burstiness burstiness_score - 0.15

/-- The scoring step of `analyze_text` (lines 132-151): adjust the base score,
clamp to `[0.01, 0.99]`, scale by 100. -/
def score {α : Type} [LinearOrderedField α] (burstiness_score pp_variance : α) :
    α :=
  max 0.01 (min 0.99 (ai_score_after_variance burstiness_score pp_variance))
    * 100

/-- The verdict of lines 223-225: AI above probability 50, human otherwise. -/
def verdict {α : Type} [LinearOrderedField α] (prob : α) : String :=
  if prob > 50 then "AI Generated" else "Human Written"

/-- The highlight class of lines 256-267: AI-like below perplexity 15,
human-like above 25, neutral in between. -/
def span_class (pp : ℚ) : String :=
  if pp < 15 then "highlight-ai"
  else if pp > 25 then "highlight-human"
  else ""

/-- The `AnalysisResult` dictionary built by `analyze_text` (lines 153-163). -/
structure AnalysisResult where
  ai_probability : ℝ
  burstiness : ℝ
  perplexity_trend : List ℚ
  sentences : List String
  sentence_count : ℕ
  word_count : ℕ
  avg_sentence_len : ℚ

/-- `analyze_text` (lines 116-163): `none` on empty input, otherwise the full
analysis result.  `draws` models the random source. -/
noncomputable def analyze_text (draws : ℕ → ℚ) (text : String) :
    Option AnalysisResult :=
  if text = "" then none
  else
    let sp := simulate_perplexity_analysis draws text
    let cb := calculate_burstiness sp.1
    let pp_variance : ℚ := if sp.2 = [] then 0 else popVarQ sp.2
    some
      { ai_probability := score cb.1 ((pp_variance : ℚ) : ℝ)
        burstiness := cb.1
        perplexity_trend := sp.2
        sentences := sp.1
        sentence_count := sp.1.length
        word_count := text.length
        avg_sentence_len := cb.2 }

/-! ### IEEE binary64 model of the scorer

The Python program computes the score in IEEE double precision.  `rnd64`
rounds an exact rational to the nearest binary64 value (53-bit mantissa,
ties to even); `scoreFloat` is the scoring step of lines 132-151 with every
decimal literal replaced by its nearest double and every addition,
subtraction and multiplication rounded, exactly as the hardware does.
Comparisons, `max` and `min` are exact in IEEE 754 and need no rounding. -/

/-- Round a rational to the nearest integer, ties to even (the rounding of
IEEE 754 binary arithmetic). -/
def rne (x : ℚ) : ℤ :=
  if x - ⌊x⌋ < 1 / 2 then ⌊x⌋
  else if x - ⌊x⌋ > 1 / 2 then ⌊x⌋ + 1
  else if ⌊x⌋ % 2 = 0 then ⌊x⌋ else ⌊x⌋ + 1

/-- The binary64 value nearest to a rational: round to a 53-bit mantissa at
the magnitude of the argument, ties to even.  (Every value arising here lies
well inside the normal range, so overflow and subnormals play no role.) -/
def rnd64 (x : ℚ) : ℚ :=
  if x = 0 then 0
  else (rne (x * 2 ^ ((52 : ℤ) - Int.log 2 |x|)) : ℚ) *
    2 ^ (Int.log 2 |x| - 52)

/-- Lines 133-139 under binary64 semantics: base 0.5 with the burstiness
adjustment, each literal the nearest double, each sum rounded. -/
def flBurst (burstiness_score : ℚ) : ℚ :=
  if burstiness_score < rnd64 0.4 then rnd64 (0.5 + rnd64 0.2)
  else if burstiness_score > rnd64 0.6 then rnd64 (0.5 - rnd64 0.2)
  else 0.5

/-- Lines 142-145 under binary64 semantics: the variance adjustment. -/
def flVar (burstiness_score pp_variance : ℚ) : ℚ :=
  if pp_variance < 10 then rnd64 (flBurst burstiness_score + rnd64 0.2)
  else rnd64 (flBurst burstiness_score - rnd64 0.15)

/-- The scoring step of `analyze_text` (lines 132-151) under binary64
semantics: adjust, clamp (exact), scale by 100 (rounded). -/
def scoreFloat (burstiness_score pp_variance : ℚ) : ℚ :=
  rnd64
    (max (rnd64 0.01) (min (rnd64 0.99) (flVar burstiness_score pp_variance))
      * 100)

/-! ### Helper lemmas -/

theorem rne_of_lt (x : ℚ) (n : ℤ) (h1 : (n : ℚ) ≤ x) (h2 : x < n + 1 / 2) :
    rne x = n := by
  have hf : ⌊x⌋ = n := Int.floor_eq_iff.mpr ⟨h1, by linarith⟩
  rw [rne, hf, if_pos (by linarith)]

theorem rne_of_gt (x : ℚ) (n : ℤ) (h1 : (n : ℚ) - 1 / 2 < x) (h2 : x ≤ n) :
    rne x = n := by
  rcases eq_or_lt_of_le h2 with heq | hlt
  · have hf : ⌊x⌋ = n := by rw [heq]; exact Int.floor_intCast n
    rw [rne, hf, if_pos (by rw [heq]; norm_num)]
  · have hf : ⌊x⌋ = n - 1 :=
      Int.floor_eq_iff.mpr ⟨by push_cast; linarith, by push_cast; linarith⟩
    rw [rne, hf, if_neg (by intro hc; push_cast at hc; linarith),
      if_pos (by push_cast; linarith)]
    omega

theorem rne_of_tie_even (x : ℚ) (n : ℤ) (h : x = n + 1 / 2) (he : n % 2 = 0) :
    rne x = n := by
  subst h
  have hf : ⌊(n : ℚ) + 1 / 2⌋ = n :=
    Int.floor_eq_iff.mpr ⟨by linarith, by linarith⟩
  rw [rne, hf, if_neg (by intro hc; linarith),
    if_neg (by intro hc; linarith), if_pos he]

theorem int_log_eq (x : ℚ) (e : ℤ) (h1 : 2 ^ e ≤ x) (h2 : x < 2 ^ (e + 1)) :
    Int.log 2 x = e := by
  have hx : 0 < x := lt_of_lt_of_le (by positivity) h1
  have hL1 : (2 : ℚ) ^ Int.log 2 x ≤ x :=
    Int.zpow_log_le_self (by norm_num) hx
  have hL2 : x < (2 : ℚ) ^ (Int.log 2 x + 1) :=
    Int.lt_zpow_succ_log_self (by norm_num) x
  have b1 : e < Int.log 2 x + 1 :=
    (zpow_lt_zpow_iff_right₀ (by norm_num : (1 : ℚ) < 2)).mp
      (lt_of_le_of_lt h1 hL2)
  have b2 : Int.log 2 x < e + 1 :=
    (zpow_lt_zpow_iff_right₀ (by norm_num : (1 : ℚ) < 2)).mp
      (lt_of_le_of_lt hL1 h2)
  omega

theorem rnd64_val (x : ℚ) (e n : ℤ) (h0 : 0 < x) (h1 : 2 ^ e ≤ x)
    (h2 : x < 2 ^ (e + 1)) (hn : rne (x * 2 ^ ((52 : ℤ) - e)) = n) :
    rnd64 x = (n : ℚ) * 2 ^ (e - 52) := by
  rw [rnd64, if_neg (ne_of_gt h0), abs_of_pos h0, int_log_eq x e h1 h2, hn]

theorem rnd64_lit02 : rnd64 (0.2 : ℚ) = 3602879701896397 / 18014398509481984 := by
  rw [rnd64_val _ (-3) 7205759403792794 (by norm_num) (by norm_num) (by norm_num)
    (rne_of_gt _ _ (by norm_num) (by norm_num))]
  norm_num

theorem rnd64_lit015 : rnd64 (0.15 : ℚ) = 5404319552844595 / 36028797018963968 := by
  rw [rnd64_val _ (-3) 5404319552844595 (by norm_num) (by norm_num) (by norm_num)
    (rne_of_lt _ _ (by norm_num) (by norm_num))]
  norm_num

theorem rnd64_lit04 : rnd64 (0.4 : ℚ) = 3602879701896397 / 9007199254740992 := by
  rw [rnd64_val _ (-2) 7205759403792794 (by norm_num) (by norm_num) (by norm_num)
    (rne_of_gt _ _ (by norm_num) (by norm_num))]
  norm_num

theorem rnd64_lit06 : rnd64 (0.6 : ℚ) = 5404319552844595 / 9007199254740992 := by
  rw [rnd64_val _ (-1) 5404319552844595 (by norm_num) (by norm_num) (by norm_num)
    (rne_of_lt _ _ (by norm_num) (by norm_num))]
  norm_num

theorem rnd64_lit001 : rnd64 (0.01 : ℚ) = 5764607523034235 / 576460752303423488 := by
  rw [rnd64_val _ (-7) 5764607523034235 (by norm_num) (by norm_num) (by norm_num)
    (rne_of_gt _ _ (by norm_num) (by norm_num))]
  norm_num

theorem rnd64_lit099 : rnd64 (0.99 : ℚ) = 4458563631096791 / 4503599627370496 := by
  rw [rnd64_val _ (-1) 8917127262193582 (by norm_num) (by norm_num) (by norm_num)
    (rne_of_lt _ _ (by norm_num) (by norm_num))]
  norm_num

theorem rnd64_a_plus : rnd64 (12610078956637389 / 18014398509481984 : ℚ) = 3152519739159347 / 4503599627370496 := by
  rw [rnd64_val _ (-1) 6305039478318694 (by norm_num) (by norm_num) (by norm_num)
    (rne_of_tie_even _ _ (by norm_num) (by norm_num))]
  norm_num

theorem rnd64_a_minus : rnd64 (5404319552844595 / 18014398509481984 : ℚ) = 5404319552844595 / 18014398509481984 := by
  rw [rnd64_val _ (-2) 5404319552844595 (by norm_num) (by norm_num) (by norm_num)
    (rne_of_lt _ _ (by norm_num) (by norm_num))]
  norm_num

theorem rnd64_s31 : rnd64 (16212958658533785 / 18014398509481984 : ℚ) = 2026619832316723 / 2251799813685248 := by
  rw [rnd64_val _ (-1) 8106479329266892 (by norm_num) (by norm_num) (by norm_num)
    (rne_of_tie_even _ _ (by norm_num) (by norm_num))]
  norm_num

theorem rnd64_s32 : rnd64 (19815838360430181 / 36028797018963968 : ℚ) = 4953959590107545 / 9007199254740992 := by
  rw [rnd64_val _ (-1) 4953959590107545 (by norm_num) (by norm_num) (by norm_num)
    (rne_of_lt _ _ (by norm_num) (by norm_num))]
  norm_num

theorem rnd64_s34 : rnd64 (12610078956637389 / 36028797018963968 : ℚ) = 3152519739159347 / 9007199254740992 := by
  rw [rnd64_val _ (-2) 6305039478318694 (by norm_num) (by norm_num) (by norm_num)
    (rne_of_tie_even _ _ (by norm_num) (by norm_num))]
  norm_num

theorem rnd64_s35 : rnd64 (1 / 2 : ℚ) = 1 / 2 := by
  rw [rnd64_val _ (-1) 4503599627370496 (by norm_num) (by norm_num) (by norm_num)
    (rne_of_lt _ _ (by norm_num) (by norm_num))]
  norm_num

theorem rnd64_s36 : rnd64 (5404319552844595 / 36028797018963968 : ℚ) = 5404319552844595 / 36028797018963968 := by
  rw [rnd64_val _ (-3) 5404319552844595 (by norm_num) (by norm_num) (by norm_num)
    (rne_of_lt _ _ (by norm_num) (by norm_num))]
  norm_num

theorem rnd64_V1 : rnd64 (50665495807918075 / 562949953421312 : ℚ) = 6333186975989759 / 70368744177664 := by
  rw [rnd64_val _ (6) 6333186975989759 (by norm_num) (by norm_num) (by norm_num)
    (rne_of_lt _ _ (by norm_num) (by norm_num))]
  norm_num

theorem rnd64_V2 : rnd64 (123848989752688625 / 2251799813685248 : ℚ) = 7740561859543039 / 140737488355328 := by
  rw [rnd64_val _ (5) 7740561859543039 (by norm_num) (by norm_num) (by norm_num)
    (rne_of_lt _ _ (by norm_num) (by norm_num))]
  norm_num

theorem rnd64_V3 : rnd64 (78812993478983675 / 1125899906842624 : ℚ) = 70 := by
  rw [rnd64_val _ (6) 4925812092436480 (by norm_num) (by norm_num) (by norm_num)
    (rne_of_gt _ _ (by norm_num) (by norm_num))]
  norm_num

theorem rnd64_V4 : rnd64 (78812993478983675 / 2251799813685248 : ℚ) = 35 := by
  rw [rnd64_val _ (5) 4925812092436480 (by norm_num) (by norm_num) (by norm_num)
    (rne_of_gt _ _ (by norm_num) (by norm_num))]
  norm_num

theorem rnd64_V5 : rnd64 (50 : ℚ) = 50 := by
  rw [rnd64_val _ (5) 7036874417766400 (by norm_num) (by norm_num) (by norm_num)
    (rne_of_lt _ _ (by norm_num) (by norm_num))]
  norm_num

theorem rnd64_V6 : rnd64 (135107988821114875 / 9007199254740992 : ℚ) = 15 := by
  rw [rnd64_val _ (3) 8444249301319680 (by norm_num) (by norm_num) (by norm_num)
    (rne_of_gt _ _ (by norm_num) (by norm_num))]
  norm_num

theorem pp_loop_length (draws : ℕ → ℚ) :
    ∀ (i : ℕ) (l : List String), (pp_loop draws i l).length = l.length
  | _, [] => rfl
  | i, s :: rest => by
      simp [pp_loop, pp_loop_length draws (i + 1) rest]

theorem pp_loop_getElem? (draws : ℕ → ℚ) :
    ∀ (k : ℕ) (l : List String) (i : ℕ),
      (pp_loop draws k l)[i]? = (l[i]?).map (fun s => pp_of (draws (k + i)) s)
  | _, [], i => by simp [pp_loop]
  | k, s :: rest, 0 => by simp [pp_loop]
  | k, s :: rest, i + 1 => by
      have ih := pp_loop_getElem? draws (k + 1) rest i
      simp only [pp_loop, List.getElem?_cons_succ, ih]
      have : k + 1 + i = k + (i + 1) := by omega
      rw [this]

theorem meanQ_nonneg (l : List ℚ) (h : ∀ x ∈ l, 0 ≤ x) : 0 ≤ meanQ l :=
  div_nonneg (List.sum_nonneg h) (Nat.cast_nonneg _)

theorem popVarQ_nonneg (l : List ℚ) : 0 ≤ popVarQ l := by
  refine div_nonneg (List.sum_nonneg ?_) (Nat.cast_nonneg _)
  intro x hx
  obtain ⟨a, _, rfl⟩ := List.mem_map.mp hx
  positivity

theorem sum_of_constant (l : List ℚ) (c : ℚ) (h : ∀ x ∈ l, x = c) :
    l.sum = l.length * c := by
  induction l with
  | nil => simp
  | cons a t ih =>
      have ha : a = c := h a (List.mem_cons_self a t)
      have ht := ih fun x hx => h x (List.mem_cons_of_mem a hx)
      simp [ha, ht]
      ring

theorem meanQ_const (l : List ℚ) (c : ℚ) (hne : l ≠ []) (h : ∀ x ∈ l, x = c) :
    meanQ l = c := by
  have hn : (l.length : ℚ) ≠ 0 := by
    exact_mod_cast Nat.pos_iff_ne_zero.mp (List.length_pos.mpr hne)
  rw [meanQ, sum_of_constant l c h, mul_comm, mul_div_assoc, div_self hn,
    mul_one]

theorem popVarQ_const (l : List ℚ) (c : ℚ) (h : ∀ x ∈ l, x = c) :
    popVarQ l = 0 := by
  rcases eq_or_ne l [] with rfl | hne
  · simp [popVarQ]
  · rw [popVarQ]
    have hz : (l.map fun x => (x - meanQ l) ^ 2).sum = 0 := by
      apply List.sum_eq_zero
      intro x hx
      obtain ⟨a, ha, rfl⟩ := List.mem_map.mp hx
      rw [h a ha, meanQ_const l c hne h]
      ring
    rw [hz, zero_div]

theorem calculate_burstiness_const_zero (sentences : List String) (c : ℕ)
    (h : ∀ s ∈ sentences, s.length = c) :
    (calculate_burstiness sentences).1 = 0 := by
  simp only [calculate_burstiness]
  split_ifs with h1 h2
  · rfl
  · rfl
  · have hvar : popVarQ (lengthsQ sentences) = 0 := by
      apply popVarQ_const _ (c : ℚ)
      intro x hx
      obtain ⟨s, hs, rfl⟩ := List.mem_map.mp hx
      exact_mod_cast congrArg (Nat.cast (R := ℚ)) (h s hs)
    simp [hvar]


theorem scoreFloat_cases (b v : ℚ) :
    scoreFloat b v = 15 ∨ scoreFloat b v = 35 ∨ scoreFloat b v = 50 ∨
      scoreFloat b v = 7740561859543039 / 140737488355328 ∨
      scoreFloat b v = 70 ∨
      scoreFloat b v = 6333186975989759 / 70368744177664 := by
  simp only [scoreFloat, flVar, flBurst]
  rw [rnd64_lit02, rnd64_lit015, rnd64_lit001, rnd64_lit099, rnd64_lit04,
    rnd64_lit06]
  split_ifs <;>
    norm_num [rnd64_a_plus, rnd64_a_minus, rnd64_s31, rnd64_s32, rnd64_s34,
      rnd64_s35, rnd64_s36, rnd64_V1, rnd64_V2, rnd64_V3, rnd64_V4, rnd64_V5,
      rnd64_V6, min_def, max_def]

theorem scoreFloat_at_03_5 :
    scoreFloat (0.3 : ℚ) 5 = 6333186975989759 / 70368744177664 := by
  simp only [scoreFloat, flVar, flBurst]
  rw [rnd64_lit02, rnd64_lit015, rnd64_lit001, rnd64_lit099, rnd64_lit04,
    rnd64_lit06]
  norm_num [rnd64_a_plus, rnd64_s31, rnd64_V1, min_def, max_def]

theorem scoreFloat_at_03_10 :
    scoreFloat (0.3 : ℚ) 10 = 7740561859543039 / 140737488355328 := by
  simp only [scoreFloat, flVar, flBurst]
  rw [rnd64_lit02, rnd64_lit015, rnd64_lit001, rnd64_lit099, rnd64_lit04,
    rnd64_lit06]
  norm_num [rnd64_a_plus, rnd64_s32, rnd64_V2, min_def, max_def]

theorem scoreFloat_at_05_5 : scoreFloat (0.5 : ℚ) 5 = 70 := by
  simp only [scoreFloat, flVar, flBurst]
  rw [rnd64_lit02, rnd64_lit015, rnd64_lit001, rnd64_lit099, rnd64_lit04,
    rnd64_lit06]
  norm_num [rnd64_a_plus, rnd64_V3, min_def, max_def]

theorem scoreFloat_at_05_10 : scoreFloat (0.5 : ℚ) 10 = 35 := by
  simp only [scoreFloat, flVar, flBurst]
  rw [rnd64_lit02, rnd64_lit015, rnd64_lit001, rnd64_lit099, rnd64_lit04,
    rnd64_lit06]
  norm_num [rnd64_s34, rnd64_V4, min_def, max_def]

theorem scoreFloat_at_07_5 : scoreFloat (0.7 : ℚ) 5 = 50 := by
  simp only [scoreFloat, flVar, flBurst]
  rw [rnd64_lit02, rnd64_lit015, rnd64_lit001, rnd64_lit099, rnd64_lit04,
    rnd64_lit06]
  norm_num [rnd64_a_minus, rnd64_s35, rnd64_V5, min_def, max_def]

theorem scoreFloat_at_07_10 : scoreFloat (0.7 : ℚ) 10 = 15 := by
  simp only [scoreFloat, flVar, flBurst]
  rw [rnd64_lit02, rnd64_lit015, rnd64_lit001, rnd64_lit099, rnd64_lit04,
    rnd64_lit06]
  norm_num [rnd64_a_minus, rnd64_s36, rnd64_V6, min_def, max_def]

theorem score_eq_cases (b v : ℚ) :
    score b v = 90 ∨ score b v = 55 ∨ score b v = 70 ∨ score b v = 35 ∨
      score b v = 50 ∨ score b v = 15 := by
  rw [score, ai_score_after_variance, ai_score_after_burstiness]
  split_ifs <;> norm_num [min_def, max_def]

/-! ### Claims -/

/-- C1: for every pair of scorer inputs, the probability produced by the
scoring step of `analyze_text` lies within `[1, 99]` inclusive. -/
theorem score_probability_in_range (b v : ℚ) :
    1 ≤ score b v ∧ score b v ≤ 99 := by
  rcases score_eq_cases b v with h | h | h | h | h | h <;> rw [h] <;> norm_num

/-- C2: for every input text (and every random stream), the sentence sequence
and the synthetic perplexity series have equal length. -/
theorem sim_lengths_eq (draws : ℕ → ℚ) (text : String) :
    (simulate_perplexity_analysis draws text).1.length =
      (simulate_perplexity_analysis draws text).2.length := by
  simp [simulate_perplexity_analysis, pp_loop_length]

/-- C3: the verdict is AI exactly when the probability is strictly greater
than 50; at exactly 50 the verdict is HUMAN. -/
theorem verdict_ai_iff (p : ℚ) :
    (verdict p = "AI Generated" ↔ 50 < p) ∧
      verdict (50 : ℚ) = "Human Written" := by
  constructor
  · rw [verdict]
    split_ifs with h
    · simp [h]
    · simp [h]
  · norm_num [verdict]

/-- Witness for C3 at probability 60. -/
theorem verdict_ai_iff_witness : verdict (60 : ℚ) = "AI Generated" :=
  (verdict_ai_iff 60).1.mpr (by norm_num)

/-- C4: scoring burstiness 0.5 and perplexity variance 10 yields probability
exactly 35 and verdict HUMAN. -/
theorem score_boundary_case :
    score (0.5 : ℚ) 10 = 35 ∧ verdict (score (0.5 : ℚ) 10) = "Human Written" := by
  constructor <;>
    norm_num [score, ai_score_after_variance, ai_score_after_burstiness,
      verdict, min_def, max_def]

/-- C5: segmentation of the empty string is the empty sequence, and
`analyze_text` on the empty string returns `none` (a defined non-error
outcome) for every random stream. -/
theorem analyze_empty (draws : ℕ → ℚ) :
    split_sentences "" = [] ∧ analyze_text draws "" = none := by
  exact ⟨rfl, by simp [analyze_text]⟩

/-- C6: burstiness is always nonnegative; it is 0 for at most one sentence and
for sentences of identical length; for a non-empty list with positive mean
length it is the population standard deviation of the lengths divided by
their mean; the function is total (never a division-by-zero error). -/
theorem calculate_burstiness_spec (sentences : List String) :
    0 ≤ (calculate_burstiness sentences).1 ∧
    (sentences.length ≤ 1 → (calculate_burstiness sentences).1 = 0) ∧
    (∀ c : ℕ, (∀ s ∈ sentences, s.length = c) →
      (calculate_burstiness sentences).1 = 0) ∧
    (sentences ≠ [] → 0 < meanQ (lengthsQ sentences) →
      (calculate_burstiness sentences).1 =
        Real.sqrt (popVarQ (lengthsQ sentences)) /
          ((meanQ (lengthsQ sentences) : ℚ) : ℝ)) := by
  refine ⟨?_, ?_, ?_, ?_⟩
  · simp only [calculate_burstiness]
    split_ifs with h1 h2
    · exact le_refl 0
    · exact le_refl 0
    · apply div_nonneg (Real.sqrt_nonneg _)
      have : (0 : ℚ) ≤ meanQ (lengthsQ sentences) := by
        apply meanQ_nonneg
        intro x hx
        obtain ⟨s, _, rfl⟩ := List.mem_map.mp hx
        exact Nat.cast_nonneg _
      exact_mod_cast this
  · intro hlen
    match sentences, hlen with
    | [], _ => rfl
    | [s], _ =>
        exact calculate_burstiness_const_zero [s] s.length (by simp)
  · intro c hc
    exact calculate_burstiness_const_zero sentences c hc
  · intro hne hpos
    simp only [calculate_burstiness]
    rw [if_neg hne, if_neg (ne_of_gt hpos)]

/-- Witness for C6: two sentences of equal length give burstiness 0. -/
theorem calculate_burstiness_spec_witness :
    (calculate_burstiness ["ab", "cd"]).1 = 0 :=
  (calculate_burstiness_spec ["ab", "cd"]).2.2.1 2 (by decide)

/-- C7: the `i`-th synthetic perplexity equals `10 * 2.5 * draws i` when the
`i`-th sentence is shorter than 5 or longer than 80 characters and
`10 * 1.2 * draws i` otherwise — a function of that sentence's own length
and own draw only. -/
theorem pp_values_formula (draws : ℕ → ℚ) (text : String) (i : ℕ) :
    ((simulate_perplexity_analysis draws text).2)[i]? =
      (((simulate_perplexity_analysis draws text).1)[i]?).map
        (fun s =>
          if s.length < 5 ∨ s.length > 80 then 10 * 2.5 * draws i
          else 10 * 1.2 * draws i) := by
  simp [simulate_perplexity_analysis, pp_loop_getElem?, pp_of]

/-- C8: the scorer is deterministic — equal inputs give equal probability and
equal verdict; it reads no state besides its two numeric arguments. -/
theorem score_deterministic (b₁ v₁ b₂ v₂ : ℚ) (hb : b₁ = b₂) (hv : v₁ = v₂) :
    score b₁ v₁ = score b₂ v₂ ∧
      verdict (score b₁ v₁) = verdict (score b₂ v₂) := by
  subst hb; subst hv; exact ⟨rfl, rfl⟩

/-- Witness for C8 at burstiness 0.3 and variance 5. -/
theorem score_deterministic_witness :
    score (0.3 : ℚ) 5 = score (0.3 : ℚ) 5 ∧
      verdict (score (0.3 : ℚ) 5) = verdict (score (0.3 : ℚ) 5) :=
  score_deterministic 0.3 5 0.3 5 rfl rfl

/-- C9 counterexample: at burstiness 0.3 and perplexity variance 10 the
binary64 scorer of lines 132-151 yields 7740561859543039/2^47
(= 54.99999999999999…), which is none of the six values 15, 35, 50, 55, 70,
90 asserted by the claim. -/
theorem scoreFloat_not_in_claimed_set :
    scoreFloat (0.3 : ℚ) 10 ≠ 15 ∧ scoreFloat (0.3 : ℚ) 10 ≠ 35 ∧
    scoreFloat (0.3 : ℚ) 10 ≠ 50 ∧ scoreFloat (0.3 : ℚ) 10 ≠ 55 ∧
    scoreFloat (0.3 : ℚ) 10 ≠ 70 ∧ scoreFloat (0.3 : ℚ) 10 ≠ 90 := by
  rw [scoreFloat_at_03_10]
  norm_num

/-- C9 (amended): under the program's IEEE binary64 arithmetic the
probability takes one of exactly six values — 15, 35, 50,
7740561859543039/2^47 (= 54.99999999999999…, not 55), 70 and
6333186975989759/2^46 (= 89.99999999999999…, not 90); each of the six is
attained, and the extremes 1 and 99 are unreachable (so the clamp to
[0.01, 0.99] never binds). -/
theorem scoreFloat_six_values (b v : ℚ) :
    (scoreFloat b v = 15 ∨ scoreFloat b v = 35 ∨ scoreFloat b v = 50 ∨
      scoreFloat b v = 7740561859543039 / 140737488355328 ∨
      scoreFloat b v = 70 ∨
      scoreFloat b v = 6333186975989759 / 70368744177664) ∧
    scoreFloat (0.7 : ℚ) 10 = 15 ∧ scoreFloat (0.5 : ℚ) 10 = 35 ∧
    scoreFloat (0.7 : ℚ) 5 = 50 ∧
    scoreFloat (0.3 : ℚ) 10 = 7740561859543039 / 140737488355328 ∧
    scoreFloat (0.5 : ℚ) 5 = 70 ∧
    scoreFloat (0.3 : ℚ) 5 = 6333186975989759 / 70368744177664 ∧
    scoreFloat b v ≠ 1 ∧ scoreFloat b v ≠ 99 := by
  have hc := scoreFloat_cases b v
  refine ⟨hc, scoreFloat_at_07_10, scoreFloat_at_05_10, scoreFloat_at_07_5,
    scoreFloat_at_03_10, scoreFloat_at_05_5, scoreFloat_at_03_5, ?_, ?_⟩ <;>
    rcases hc with h | h | h | h | h | h <;> rw [h] <;> norm_num

/-- C10: under a draw in `[0.8, 1.5]`, a sentence of length 5 to 80 gets a
perplexity in `[9.6, 18]` and can never be highlighted human-like, while a
sentence of length below 5 or above 80 gets a perplexity in `[20, 37.5]` and
can never be highlighted AI-like. -/
theorem pp_highlight_ranges (r : ℚ) (s : String) (h1 : 0.8 ≤ r)
    (h2 : r ≤ 1.5) :
    (5 ≤ s.length → s.length ≤ 80 →
      9.6 ≤ pp_of r s ∧ pp_of r s ≤ 18 ∧
        span_class (pp_of r s) ≠ "highlight-human") ∧
    (s.length < 5 ∨ s.length > 80 →
      20 ≤ pp_of r s ∧ pp_of r s ≤ 37.5 ∧
        span_class (pp_of r s) ≠ "highlight-ai") := by
  constructor
  · intro h5 h80
    have hcond : ¬(s.length < 5 ∨ s.length > 80) := by omega
    rw [pp_of, if_neg hcond]
    refine ⟨by linarith, by linarith, ?_⟩
    rw [span_class]
    split_ifs with ha hh
    · decide
    · exfalso; linarith
    · decide
  · intro hcond
    rw [pp_of, if_pos hcond]
    refine ⟨by linarith, by linarith, ?_⟩
    rw [span_class]
    split_ifs with ha hh
    · exfalso; linarith
    · decide
    · decide

/-- Witness for C10 at draw 1 and the five-character sentence "hello". -/
theorem pp_highlight_ranges_witness :
    9.6 ≤ pp_of 1 "hello" ∧ pp_of 1 "hello" ≤ 18 ∧
      span_class (pp_of 1 "hello") ≠ "highlight-human" :=
  (pp_highlight_ranges 1 "hello" (by norm_num) (by norm_num)).1
    (by decide) (by decide)

end App
